import Mathlib

/-!
Verification of `mappings_manager.py` (DAKOSYS mappings manager).

The module is straight-line file I/O over two YAML files:
`MAPPINGS_FILE` (config/mappings.yaml) and `CONFIG_FILE` (config/config.yaml).
We shallowly embed the YAML value universe, the two-file file-system state,
and each public operation of the module, following the source line by line.

Modelling choices (stated once, used throughout):
- YAML values are `null`, strings, and string-keyed dictionaries.  (Numbers,
  booleans and lists are omitted; for the properties below a non-dict value
  behaves like the string case: Python `in` on it is membership-like and
  item assignment raises `TypeError`.)
- A file is `absent`, `malformed` (exists but reading/YAML-parsing raises),
  or `content v` (exists and parses to the value `v`; an empty file parses
  to `null`).  `yaml.dump` followed by `yaml.safe_load` is value-preserving,
  so a written file is modelled as `content` of the written value.
- I/O write failures are injected through an `Env` record: one flag for the
  mappings-file write (covering `os.makedirs` and the `yaml.dump` at lines
  78-82), one for the config-file rewrite at lines 101-102.  A failed write
  leaves the prior file content.
- Python expressions that can raise (`k in x`, `x[k]`, `x[k] = v`,
  `x.get(k, d)`) are `Except`-valued primitives; a `try/except` block in the
  source becomes a `match` discarding the error.  Logging is not modelled.
-/

/-- Python exception kinds that the embedded code can raise. -/
inductive PyErr where
  | typeError
  | attributeError
  | keyError
  | parseError
  | fileNotFound
deriving DecidableEq

/-- YAML values: `null`, scalar strings, and string-keyed dictionaries
(association lists; operations below use first-occurrence map semantics). -/
inductive Yaml where
  | null
  | str (s : String)
  | dict (entries : List (String × Yaml))

/-- First-occurrence lookup in an association list (Python `d[k]` / `k in d`). -/
def lookupKey : List (String × Yaml) → String → Option Yaml
  | [], _ => none
  | (k', v') :: t, k => if k' = k then some v' else lookupKey t k

/-- Python `d[k] = v` on a dict: replace the first binding of `k` in place,
or append a fresh binding at the end (insertion order is preserved). -/
def setKey : List (String × Yaml) → String → Yaml → List (String × Yaml)
  | [], k, v => [(k, v)]
  | (k', v') :: t, k, v => if k' = k then (k, v) :: t else (k', v') :: setKey t k v

/-- Python `del d[k]` on a dict: remove the binding(s) of `k`. -/
def eraseKey : List (String × Yaml) → String → List (String × Yaml)
  | [], _ => []
  | (k', v') :: t, k => if k' = k then eraseKey t k else (k', v') :: eraseKey t k

/-- Python `x is None`. -/
def Yaml.isNull : Yaml → Bool
  | .null => true
  | _ => false

/-- Is the value a scalar string? -/
def Yaml.isStr : Yaml → Bool
  | .str _ => true
  | _ => false

/-- Dictionary lookup lifted to values (`none` on non-dicts). -/
def Yaml.lookupY : Yaml → String → Option Yaml
  | .dict es, k => lookupKey es k
  | _, _ => none

/-- Is `sub` a prefix of `l`? (structural helper for the substring test). -/
def listPrefix : List Char → List Char → Bool
  | [], _ => true
  | _ :: _, [] => false
  | a :: as, b :: bs => a == b && listPrefix as bs

/-- Does `sub` occur inside `l`? (structural helper for the substring test). -/
def listContains (sub : List Char) : List Char → Bool
  | [] => sub.isEmpty
  | c :: cs => listPrefix sub (c :: cs) || listContains sub cs

/-- Python substring test `sub in s` for strings. -/
def pyInStr (sub s : String) : Bool :=
  listContains sub.data s.data

/-- Python `s.replace(old, new)` for single-character `old`/`new`, the only
form the source uses (line 182: `replace('-', ' ')`). -/
def pyReplaceChar (old new : Char) (s : String) : String :=
  String.mk (s.data.map fun c => if c = old then new else c)

/-- Python `k in y`: key membership on a dict, substring test on a string,
`TypeError` on `None` (`argument of type NoneType is not iterable`). -/
def pyContains (k : String) (y : Yaml) : Except PyErr Bool :=
  match y with
  | .dict es => .ok (lookupKey es k).isSome
  | .str s => .ok (pyInStr k s)
  | .null => .error .typeError

/-- Python `y[k]` with a string key: dict item access (`KeyError` when the key
is missing), `TypeError` on strings (string indices must be integers) and on
`None`. -/
def pyGetItem (y : Yaml) (k : String) : Except PyErr Yaml :=
  match y with
  | .dict es =>
    match lookupKey es k with
    | some v => .ok v
    | none => .error .keyError
  | _ => .error .typeError

/-- Python `y[k] = v`: item assignment, `TypeError` on non-dicts. -/
def pySetItem (y : Yaml) (k : String) (v : Yaml) : Except PyErr Yaml :=
  match y with
  | .dict es => .ok (.dict (setKey es k v))
  | _ => .error .typeError

/-- Python `y.get(k, dflt)`: only dicts have `.get`; `AttributeError`
otherwise (in particular on `None` and strings). -/
def pyGet (y : Yaml) (k : String) (dflt : Yaml) : Except PyErr Yaml :=
  match y with
  | .dict es => .ok ((lookupKey es k).getD dflt)
  | _ => .error .attributeError

/-- Python `str.title()` restricted to the ASCII letters used here: the first
letter after a non-letter is uppercased, subsequent letters lowercased. -/
def pyTitleAux : Bool → List Char → List Char
  | _, [] => []
  | prevCased, c :: cs =>
    if c.isAlpha then
      (if prevCased then c.toLower else c.toUpper) :: pyTitleAux true cs
    else
      c :: pyTitleAux false cs

/-- Python `s.title()`. -/
def pyTitle (s : String) : String :=
  String.mk (pyTitleAux false s.data)

/-- State of one stored file. -/
inductive FileState where
  | absent
  | malformed
  | content (v : Yaml)

/-- Python `os.path.exists`. -/
def fileExists : FileState → Bool
  | .absent => false
  | _ => true

/-- Reading and YAML-parsing one file (lines 40-41 / 57-58). -/
def readYaml : FileState → Except PyErr Yaml
  | .absent => .error .fileNotFound
  | .malformed => .error .parseError
  | .content v => .ok v

/-- The two-file store: `MAPPINGS_FILE` and `CONFIG_FILE`. -/
structure FS where
  mappingsFile : FileState
  configFile : FileState

/-- Injected I/O write failures: whether persisting the mappings file fails
(lines 78-82) and whether rewriting the config file fails (lines 101-102). -/
structure Env where
  mappingsWriteFails : Bool
  configWriteFails : Bool

/-- Lines 93-98: `del config['mappings']` etc. on the re-read config dict. -/
def eraseConfigSections (es : List (String × Yaml)) : List (String × Yaml) :=
  eraseKey (eraseKey (eraseKey es "mappings") "trakt_mappings") "title_mappings"

/-- `save_mappings(mappings, migrate_from_config=False)`, lines 74-111.
Writes `doc` to the mappings file; on `migrate`, additionally re-reads the
config file, deletes the three mapping keys and rewrites it, any failure in
that inner block being swallowed (lines 105-106).  Returns the success flag
of the mappings write together with the updated store. -/
def save_mappings (env : Env) (doc : Yaml) (migrate : Bool) (fs : FS) : Bool × FS :=
  if env.mappingsWriteFails then
    -- lines 109-111: exception in makedirs/open/dump caught, returns False
    (false, fs)
  else
    let fs1 : FS := { fs with mappingsFile := .content doc }
    if migrate && fileExists fs.configFile then
      match fs.configFile with
      | .content (Yaml.dict es) =>
        if env.configWriteFails then
          -- lines 105-106: inner exception logged, save still succeeds
          (true, fs1)
        else
          (true, { fs1 with configFile := .content (Yaml.dict (eraseConfigSections es)) })
      | _ =>
        -- config unreadable, or a non-dict on which the `del` raises:
        -- inner exception caught at lines 105-106, config left as-is
        -- (a plain string with none of the three substrings is dumped back
        -- unchanged, which is also the identity at the value level)
        (true, fs1)
    else
      (true, fs1)

/-- Lines 43-44 (and 45-46, 47-48 for the other keys):
`if k not in mappings: mappings[k] = {}`. -/
def ensureSection (k : String) (doc : Yaml) : Except PyErr Yaml :=
  match pyContains k doc with
  | .error e => .error e
  | .ok true => .ok doc
  | .ok false => pySetItem doc k (Yaml.dict [])

/-- Lines 43-48: backfill the three section keys when absent. -/
def ensureSections (doc : Yaml) : Except PyErr Yaml :=
  match ensureSection "mappings" doc with
  | .error e => .error e
  | .ok d1 =>
    match ensureSection "trakt_mappings" d1 with
    | .error e => .error e
    | .ok d2 => ensureSection "title_mappings" d2

/-- Lines 38-52: the attempt to serve `load_mappings` from the dedicated
mappings file.  `none` means the branch is skipped (file absent) or its
`try` block raised (parse failure, or the membership checks raising on a
non-dict value) and control falls through to the config fallback. -/
def loadPrimary (fs : FS) : Option Yaml :=
  match fs.mappingsFile with
  | .content v => (ensureSections v).toOption
  | _ => none

/-- Lines 60-63: extract the three sections from the parsed config value
(`config.get(k, {})`, raising `AttributeError` on a non-dict config). -/
def configExtract (config : Yaml) : Except PyErr Yaml :=
  match pyGet config "mappings" (Yaml.dict []) with
  | .error e => .error e
  | .ok m =>
    match pyGet config "trakt_mappings" (Yaml.dict []) with
    | .error e => .error e
    | .ok t =>
      match pyGet config "title_mappings" (Yaml.dict []) with
      | .error e => .error e
      | .ok ti =>
        .ok (Yaml.dict [("mappings", m), ("trakt_mappings", t), ("title_mappings", ti)])

/-- Line 72: the all-empty default document. -/
def emptyDoc : Yaml :=
  Yaml.dict [("mappings", Yaml.dict []), ("trakt_mappings", Yaml.dict []),
    ("title_mappings", Yaml.dict [])]

/-- `load_mappings()`, lines 35-72.  Primary path: the mappings file, with
the three sections backfilled when absent.  Fallback (file absent, or any
exception in the primary `try`): read the config file, synthesize a document
from its three sections, persist it via `save_mappings(..., True)` ignoring
the result, and return it; if the fallback itself raises, return the default
empty document.  Returns the document and the (possibly updated) store. -/
def load_mappings (env : Env) (fs : FS) : Yaml × FS :=
  match loadPrimary fs with
  | some doc => (doc, fs)
  | none =>
    match readYaml fs.configFile with
    | .ok config =>
      match configExtract config with
      | .ok doc =>
        -- line 66: result of the automatic migration save is ignored
        let fs' := (save_mappings env doc true fs).2
        (doc, fs')
      | .error _ => (emptyDoc, fs)
    | .error _ => (emptyDoc, fs)

/-- `get_mappings()`, lines 171-173: alias for `load_mappings`. -/
def get_mappings (env : Env) (fs : FS) : Yaml × FS :=
  load_mappings env fs

/-- `get_plex_name(afl_name)`, lines 175-184.  This function has no
`try/except`, so its value is `Except`-typed: a non-dict loaded document or
a non-string looked-up mapping value makes the `.get` / `'-' in` / `.replace`
steps raise, and the exception propagates to the caller. -/
def get_plex_name (env : Env) (afl_name : String) (fs : FS) :
    Except PyErr Yaml × FS :=
  let p := load_mappings env fs
  let r : Except PyErr Yaml :=
    match pyGet p.1 "mappings" (Yaml.dict []) with
    | .error e => .error e
    | .ok sec =>
      match pyGet sec afl_name (Yaml.str afl_name) with
      | .error e => .error e
      | .ok plex =>
        match pyContains "-" plex with
        | .error e => .error e
        | .ok true =>
          -- line 182: plex_name.replace('-', ' ').title()
          match plex with
          | .str s => .ok (.str (pyTitle (pyReplaceChar '-' ' ' s)))
          | _ => .error .attributeError
        | .ok false => .ok plex
  (r, p.2)

/-- Lines 119-123 of `add_plex_mapping`: ensure the `mappings` section key,
then `mappings['mappings'][afl_name] = plex_name`. -/
def addPlexBody (afl_name plex_name : String) (doc : Yaml) : Except PyErr Yaml :=
  match ensureSection "mappings" doc with
  | .error e => .error e
  | .ok d =>
    match pyGetItem d "mappings" with
    | .error e => .error e
    | .ok sec =>
      match pySetItem sec afl_name (Yaml.str plex_name) with
      | .error e => .error e
      | .ok sec' => pySetItem d "mappings" sec'

/-- `add_plex_mapping(afl_name, plex_name)`, lines 113-129: load, mutate,
save; any exception in the body is caught and turned into `False`. -/
def add_plex_mapping (env : Env) (afl_name plex_name : String) (fs : FS) :
    Bool × FS :=
  let p := load_mappings env fs
  match addPlexBody afl_name plex_name p.1 with
  | .ok doc' => save_mappings env doc' false p.2
  | .error _ => (false, p.2)

/-- Line 137: `if 'title_mappings' not in mappings or
mappings['title_mappings'] is None: mappings['title_mappings'] = {}`
(short-circuit `or`, left to right). -/
def ensureTitleSection (doc : Yaml) : Except PyErr Yaml :=
  match pyContains "title_mappings" doc with
  | .error e => .error e
  | .ok present =>
    if present then
      match pyGetItem doc "title_mappings" with
      | .error e => .error e
      | .ok v =>
        if v.isNull then pySetItem doc "title_mappings" (Yaml.dict []) else .ok doc
    else
      pySetItem doc "title_mappings" (Yaml.dict [])

/-- Lines 141-142: `if anime_name not in mappings['title_mappings']:
mappings['title_mappings'][anime_name] = {}`. -/
def ensureAnimeSection (anime : String) (doc : Yaml) : Except PyErr Yaml :=
  match pyGetItem doc "title_mappings" with
  | .error e => .error e
  | .ok tm =>
    match pyContains anime tm with
    | .error e => .error e
    | .ok present =>
      if present then .ok doc
      else
        match pySetItem tm anime (Yaml.dict []) with
        | .error e => .error e
        | .ok tm' => pySetItem doc "title_mappings" tm'

/-- Lines 145-146: ensure `special_matches` exists and is not `None` under
the show entry. -/
def ensureSpecialMatches (anime : String) (doc : Yaml) : Except PyErr Yaml :=
  match pyGetItem doc "title_mappings" with
  | .error e => .error e
  | .ok tm =>
    match pyGetItem tm anime with
    | .error e => .error e
    | .ok w =>
      match pyContains "special_matches" w with
      | .error e => .error e
      | .ok present =>
        match
          (if present then
            match pyGetItem w "special_matches" with
            | .error e => .error e
            | .ok sv => .ok sv.isNull
          else (.ok true : Except PyErr Bool)) with
        | .error e => .error e
        | .ok needInit =>
          if needInit then
            match pySetItem w "special_matches" (Yaml.dict []) with
            | .error e => .error e
            | .ok w' =>
              match pySetItem tm anime w' with
              | .error e => .error e
              | .ok tm' => pySetItem doc "title_mappings" tm'
          else .ok doc

/-- Line 149:
`mappings['title_mappings'][anime_name]['special_matches'][episode_title] = trakt_title`. -/
def setSpecialMatch (anime ep title : String) (doc : Yaml) : Except PyErr Yaml :=
  match pyGetItem doc "title_mappings" with
  | .error e => .error e
  | .ok tm =>
    match pyGetItem tm anime with
    | .error e => .error e
    | .ok w =>
      match pyGetItem w "special_matches" with
      | .error e => .error e
      | .ok sm =>
        match pySetItem sm ep (Yaml.str title) with
        | .error e => .error e
        | .ok sm' =>
          match pySetItem w "special_matches" sm' with
          | .error e => .error e
          | .ok w' =>
            match pySetItem tm anime w' with
            | .error e => .error e
            | .ok tm' => pySetItem doc "title_mappings" tm'

/-- Lines 137-149: the mutation body of `add_title_mapping`. -/
def addTitleBody (anime ep title : String) (doc : Yaml) : Except PyErr Yaml :=
  match ensureTitleSection doc with
  | .error e => .error e
  | .ok d1 =>
    match ensureAnimeSection anime d1 with
    | .error e => .error e
    | .ok d2 =>
      match ensureSpecialMatches anime d2 with
      | .error e => .error e
      | .ok d3 => setSpecialMatch anime ep title d3

/-- `add_title_mapping(anime_name, episode_title, trakt_title)`, lines
131-157: load, mutate, save; any exception is caught and yields `False`. -/
def add_title_mapping (env : Env) (anime ep title : String) (fs : FS) :
    Bool × FS :=
  let p := load_mappings env fs
  match addTitleBody anime ep title p.1 with
  | .ok doc' => save_mappings env doc' false p.2
  | .error _ => (false, p.2)

/-- `migrate_mappings_from_config()`, lines 159-169: load (which itself
migrates when it falls back to the config), then save with the migration
flag set.  Neither callee raises, so the surrounding `try` is inert. -/
def migrate_mappings_from_config (env : Env) (fs : FS) : Bool × FS :=
  let p := load_mappings env fs
  save_mappings env p.1 true p.2

/-- The document synthesized from a parsed config dict (lines 60-63). -/
def cfgDoc (cfg : List (String × Yaml)) : Yaml :=
  Yaml.dict [("mappings", (lookupKey cfg "mappings").getD (Yaml.dict [])),
    ("trakt_mappings", (lookupKey cfg "trakt_mappings").getD (Yaml.dict [])),
    ("title_mappings", (lookupKey cfg "title_mappings").getD (Yaml.dict []))]

/-- Deep lookup `doc['title_mappings'][anime]['special_matches'][ep]`,
returning `none` at any missing link. -/
def titlePath (doc : Yaml) (anime ep : String) : Option Yaml :=
  (doc.lookupY "title_mappings").bind fun tm =>
    (tm.lookupY anime).bind fun w =>
      (w.lookupY "special_matches").bind fun sm => sm.lookupY ep

/-! ### Association-list facts -/

theorem lookupKey_setKey_self (l : List (String × Yaml)) (k : String) (v : Yaml) :
    lookupKey (setKey l k v) k = some v := by
  induction l with
  | nil => simp [setKey, lookupKey]
  | cons p t ih =>
    obtain ⟨k₀, v₀⟩ := p
    simp only [setKey]
    by_cases h0 : k₀ = k
    · simp [h0, lookupKey]
    · simp [h0, lookupKey, ih]

theorem lookupKey_setKey_ne (l : List (String × Yaml)) (k k' : String) (v : Yaml)
    (h : k' ≠ k) : lookupKey (setKey l k v) k' = lookupKey l k' := by
  induction l with
  | nil => simp [setKey, lookupKey, Ne.symm h]
  | cons p t ih =>
    obtain ⟨k₀, v₀⟩ := p
    simp only [setKey]
    by_cases h0 : k₀ = k
    · simp [h0, lookupKey, Ne.symm h]
    · simp [h0, lookupKey, ih]

theorem lookupKey_eraseKey_self (l : List (String × Yaml)) (k : String) :
    lookupKey (eraseKey l k) k = none := by
  induction l with
  | nil => simp [eraseKey, lookupKey]
  | cons p t ih =>
    obtain ⟨k₀, v₀⟩ := p
    simp only [eraseKey]
    by_cases h0 : k₀ = k
    · simp [h0, ih]
    · simp [h0, lookupKey, ih]

theorem lookupKey_eraseKey_ne (l : List (String × Yaml)) (k k' : String)
    (h : k' ≠ k) : lookupKey (eraseKey l k) k' = lookupKey l k' := by
  induction l with
  | nil => simp [eraseKey]
  | cons p t ih =>
    obtain ⟨k₀, v₀⟩ := p
    simp only [eraseKey]
    by_cases h0 : k₀ = k
    · simp [h0, lookupKey, Ne.symm h, ih]
    · simp [h0, lookupKey, ih]

theorem lookupKey_mem (l : List (String × Yaml)) (k : String) (v : Yaml)
    (h : lookupKey l k = some v) : (k, v) ∈ l := by
  induction l with
  | nil => simp [lookupKey] at h
  | cons p t ih =>
    obtain ⟨k₀, v₀⟩ := p
    by_cases h0 : k₀ = k
    · subst h0
      simp [lookupKey] at h
      subst h
      exact List.mem_cons_self _ _
    · simp [lookupKey, h0] at h
      exact List.mem_cons_of_mem _ (ih h)

/-! ### `ensureSection` / `ensureSections` facts -/

/-- On a dict, `ensureSection` always succeeds, yields a dict in which `k`
is bound, and does not touch other keys. -/
theorem ensureSection_dict (k : String) (es : List (String × Yaml)) :
    ∃ es', ensureSection k (Yaml.dict es) = .ok (Yaml.dict es')
      ∧ (lookupKey es' k).isSome
      ∧ ∀ k', k' ≠ k → lookupKey es' k' = lookupKey es k' := by
  cases h : (lookupKey es k).isSome with
  | true =>
    refine ⟨es, ?_, h, fun _ _ => rfl⟩
    simp [ensureSection, pyContains, h]
  | false =>
    refine ⟨setKey es k (Yaml.dict []), ?_, ?_, ?_⟩
    · simp [ensureSection, pyContains, h, pySetItem]
    · simp [lookupKey_setKey_self]
    · intro k' hk'
      exact lookupKey_setKey_ne es k k' _ hk'

/-- `ensureSection` is the identity on a dict that already has the key. -/
theorem ensureSection_noop (k : String) (es : List (String × Yaml))
    (h : (lookupKey es k).isSome) :
    ensureSection k (Yaml.dict es) = .ok (Yaml.dict es) := by
  simp [ensureSection, pyContains, h]

/-- If `ensureSection` succeeds on a string it passes the string through
(the key was a substring; otherwise the assignment raises `TypeError`). -/
theorem ensureSection_str (k s : String) (d : Yaml)
    (h : ensureSection k (Yaml.str s) = .ok d) : d = Yaml.str s := by
  by_cases hs : pyInStr k s
  · simp [ensureSection, pyContains, hs] at h
    exact h.symm
  · simp [ensureSection, pyContains, hs, pySetItem] at h

/-- `ensureSection` raises on `None` (membership test on `NoneType`). -/
theorem ensureSection_null (k : String) :
    ensureSection k Yaml.null = .error .typeError := rfl

/-- On a dict, the lines 43-48 backfill always succeeds and produces a dict
with all three section keys bound. -/
theorem ensureSections_dict (es : List (String × Yaml)) :
    ∃ es', ensureSections (Yaml.dict es) = .ok (Yaml.dict es')
      ∧ (lookupKey es' "mappings").isSome
      ∧ (lookupKey es' "trakt_mappings").isSome
      ∧ (lookupKey es' "title_mappings").isSome := by
  obtain ⟨es1, h1, hk1, hp1⟩ := ensureSection_dict "mappings" es
  obtain ⟨es2, h2, hk2, hp2⟩ := ensureSection_dict "trakt_mappings" es1
  obtain ⟨es3, h3, hk3, hp3⟩ := ensureSection_dict "title_mappings" es2
  refine ⟨es3, ?_, ?_, ?_, hk3⟩
  · simp [ensureSections, h1, h2, h3]
  · rw [hp3 "mappings" (by decide), hp2 "mappings" (by decide)]
    exact hk1
  · rw [hp3 "trakt_mappings" (by decide)]
    exact hk2

/-- The backfill is the identity on a dict that already has all three keys. -/
theorem ensureSections_noop (es : List (String × Yaml))
    (h1 : (lookupKey es "mappings").isSome)
    (h2 : (lookupKey es "trakt_mappings").isSome)
    (h3 : (lookupKey es "title_mappings").isSome) :
    ensureSections (Yaml.dict es) = .ok (Yaml.dict es) := by
  simp [ensureSections, ensureSection_noop _ _ h1, ensureSection_noop _ _ h2,
    ensureSection_noop _ _ h3]

/-- If the backfill succeeds on a string, it passes the string through
(possible exactly when all three key names occur as substrings). -/
theorem ensureSections_str (s : String) (d : Yaml)
    (h : ensureSections (Yaml.str s) = .ok d) : d = Yaml.str s := by
  unfold ensureSections at h
  cases h1 : ensureSection "mappings" (Yaml.str s) with
  | error e => simp [h1] at h
  | ok d1 =>
    obtain rfl := ensureSection_str _ _ _ h1
    simp only [h1] at h
    cases h2 : ensureSection "trakt_mappings" (Yaml.str s) with
    | error e => simp [h2] at h
    | ok d2 =>
      obtain rfl := ensureSection_str _ _ _ h2
      simp only [h2] at h
      exact ensureSection_str _ _ _ h

/-- The backfill raises on `None` (line 43's membership test, caught at
line 51). -/
theorem ensureSections_null : ensureSections Yaml.null = .error .typeError := rfl

/-- A string survives one `ensureSection` only when the key occurs in it as
a substring (otherwise the line 44 assignment raises `TypeError`). -/
theorem ensureSection_str_ok (k s : String) (d : Yaml)
    (h : ensureSection k (Yaml.str s) = .ok d) : pyInStr k s = true := by
  by_cases hs : pyInStr k s
  · exact hs
  · simp [ensureSection, pyContains, hs, pySetItem] at h

/-- A string survives the whole backfill only when all three section names
occur in it as substrings. -/
theorem ensureSections_str_ok (s : String) (d : Yaml)
    (h : ensureSections (Yaml.str s) = .ok d) :
    pyInStr "mappings" s = true ∧ pyInStr "trakt_mappings" s = true
      ∧ pyInStr "title_mappings" s = true := by
  unfold ensureSections at h
  cases h1 : ensureSection "mappings" (Yaml.str s) with
  | error e => simp [h1] at h
  | ok d1 =>
    obtain rfl := ensureSection_str _ _ _ h1
    simp only [h1] at h
    cases h2 : ensureSection "trakt_mappings" (Yaml.str s) with
    | error e => simp [h2] at h
    | ok d2 =>
      obtain rfl := ensureSection_str _ _ _ h2
      simp only [h2] at h
      exact ⟨ensureSection_str_ok _ _ _ h1, ensureSection_str_ok _ _ _ h2,
        ensureSection_str_ok _ _ _ h⟩

/-! ### `load_mappings` / `save_mappings` facts -/

/-- Inversion for the primary load path: it produced a document only if the
mappings file parsed and the backfill ran without raising. -/
theorem loadPrimary_some (fs : FS) (doc : Yaml) (h : loadPrimary fs = some doc) :
    ∃ v, fs.mappingsFile = .content v ∧ ensureSections v = .ok doc := by
  unfold loadPrimary at h
  cases hm : fs.mappingsFile with
  | absent => simp [hm] at h
  | malformed => simp [hm] at h
  | content v =>
    simp only [hm] at h
    refine ⟨v, rfl, ?_⟩
    cases he : ensureSections v with
    | error e => simp [he, Except.toOption] at h
    | ok d =>
      simp [he, Except.toOption] at h
      rw [h]

/-- A successful primary load returns the backfilled file content and leaves
the store untouched. -/
theorem load_primary_eq (env : Env) (fs : FS) (v d : Yaml)
    (hm : fs.mappingsFile = .content v) (he : ensureSections v = .ok d) :
    load_mappings env fs = (d, fs) := by
  unfold load_mappings loadPrimary
  simp [hm, he, Except.toOption]

/-- A failed mappings write makes `save_mappings` report failure and leaves
the store untouched. -/
theorem save_fail (env : Env) (doc : Yaml) (migrate : Bool) (fs : FS)
    (h : env.mappingsWriteFails = true) :
    save_mappings env doc migrate fs = (false, fs) := by
  simp [save_mappings, h]

/-- A plain (non-migrating) successful save overwrites the mappings file and
nothing else. -/
theorem save_plain (env : Env) (doc : Yaml) (fs : FS)
    (h : env.mappingsWriteFails = false) :
    save_mappings env doc false fs = (true, { fs with mappingsFile := .content doc }) := by
  simp [save_mappings, h]

/-- A migrating save against a parsed config dict overwrites the mappings
file and removes the three mapping keys from the config. -/
theorem save_migrate_dict (env : Env) (doc : Yaml) (fs : FS)
    (es : List (String × Yaml))
    (h : env.mappingsWriteFails = false) (hc : env.configWriteFails = false)
    (hcf : fs.configFile = .content (Yaml.dict es)) :
    save_mappings env doc true fs =
      (true, ⟨.content doc, .content (Yaml.dict (eraseConfigSections es))⟩) := by
  simp [save_mappings, h, hc, hcf, fileExists]

/-- Lines 60-63 on a parsed config dict produce exactly `cfgDoc`. -/
theorem configExtract_dict (cfg : List (String × Yaml)) :
    configExtract (Yaml.dict cfg) = .ok (cfgDoc cfg) := rfl

/-- `configExtract` succeeds only on dicts (`.get` raises otherwise). -/
theorem configExtract_ok (config doc : Yaml) (h : configExtract config = .ok doc) :
    ∃ cfg, config = Yaml.dict cfg ∧ doc = cfgDoc cfg := by
  cases config with
  | null => simp [configExtract, pyGet] at h
  | str s => simp [configExtract, pyGet] at h
  | dict cfg =>
    rw [configExtract_dict] at h
    exact ⟨cfg, rfl, (Except.ok.inj h).symm⟩

/-- The config fallback of `load_mappings` (lines 54-69), for a readable
config dict and no injected write failures: it synthesizes `cfgDoc`,
persists it to the mappings file, strips the config, and returns it. -/
theorem load_fallback (env : Env) (fs : FS) (cfg : List (String × Yaml))
    (hp : loadPrimary fs = none) (hc : fs.configFile = .content (Yaml.dict cfg))
    (hw : env.mappingsWriteFails = false) (hcw : env.configWriteFails = false) :
    load_mappings env fs =
      (cfgDoc cfg, ⟨.content (cfgDoc cfg), .content (Yaml.dict (eraseConfigSections cfg))⟩) := by
  unfold load_mappings
  rw [hp]
  simp only [hc, readYaml, configExtract_dict,
    save_migrate_dict env (cfgDoc cfg) fs cfg hw hcw hc]

/-- Every document coming out of `load_mappings` is either a dict with the
three section keys bound, or (pathologically) a string scalar the membership
checks let through. -/
theorem load_shape (env : Env) (fs : FS) :
    (∃ ds, (load_mappings env fs).1 = Yaml.dict ds
      ∧ (lookupKey ds "mappings").isSome
      ∧ (lookupKey ds "trakt_mappings").isSome
      ∧ (lookupKey ds "title_mappings").isSome)
    ∨ (∃ s, fs.mappingsFile = FileState.content (Yaml.str s)
        ∧ ensureSections (Yaml.str s) = .ok (Yaml.str s)
        ∧ (load_mappings env fs).1 = Yaml.str s) := by
  unfold load_mappings
  cases hp : loadPrimary fs with
  | some doc =>
    obtain ⟨v, hm, he⟩ := loadPrimary_some fs doc hp
    cases v with
    | null => rw [ensureSections_null] at he; cases he
    | str s =>
      right
      obtain rfl := ensureSections_str _ _ he
      exact ⟨s, hm, he, by simp [load_primary_eq env fs _ _ hm he]⟩
    | dict es =>
      left
      obtain ⟨es', he', k1, k2, k3⟩ := ensureSections_dict es
      rw [he'] at he
      exact ⟨es', by simp [Except.ok.inj he], k1, k2, k3⟩
  | none =>
    left
    cases hr : readYaml fs.configFile with
    | error e =>
      simp only [hr]
      exact ⟨_, rfl, by simp [lookupKey], by simp [lookupKey], by simp [lookupKey]⟩
    | ok config =>
      simp only [hr]
      cases hx : configExtract config with
      | error e =>
        simp only [hx]
        exact ⟨_, rfl, by simp [lookupKey], by simp [lookupKey], by simp [lookupKey]⟩
      | ok doc =>
        simp only [hx]
        obtain ⟨cfg, rfl, rfl⟩ := configExtract_ok config doc hx
        exact ⟨_, rfl, by simp [lookupKey], by simp [lookupKey], by simp [lookupKey]⟩

/-- After the migration delete (lines 93-98), the `mappings` key is gone. -/
theorem eraseConfigSections_mappings (es : List (String × Yaml)) :
    lookupKey (eraseConfigSections es) "mappings" = none := by
  unfold eraseConfigSections
  rw [lookupKey_eraseKey_ne _ _ _ (by decide), lookupKey_eraseKey_ne _ _ _ (by decide)]
  exact lookupKey_eraseKey_self es "mappings"

/-- The migration delete leaves every other config key untouched. -/
theorem eraseConfigSections_other (es : List (String × Yaml)) (k : String)
    (h1 : k ≠ "mappings") (h2 : k ≠ "trakt_mappings") (h3 : k ≠ "title_mappings") :
    lookupKey (eraseConfigSections es) k = lookupKey es k := by
  unfold eraseConfigSections
  rw [lookupKey_eraseKey_ne _ _ _ h3, lookupKey_eraseKey_ne _ _ _ h2,
    lookupKey_eraseKey_ne _ _ _ h1]

/-! ### Claim theorems -/

/-- C1, counterexample: the spec claims every document returned by `load()`
has the three sections present *and non-null* even when the file maps them
to null, and also on the ConfigDocument fallback.  The code backfills only
*missing* keys: a mappings file parsing to `{mappings: null}` is returned
with its `mappings` section still null (first conjunct), and so is a
document synthesized from a config parsing to `{mappings: null}` (second
conjunct, `config.get('mappings', {})` returns the explicit null). -/
theorem c1_counterexample :
    ((load_mappings ⟨false, false⟩
        ⟨FileState.content (Yaml.dict [("mappings", Yaml.null)]), FileState.absent⟩).1).lookupY
      "mappings" = some Yaml.null
    ∧ ((load_mappings ⟨false, false⟩
        ⟨FileState.absent, FileState.content (Yaml.dict [("mappings", Yaml.null)])⟩).1).lookupY
      "mappings" = some Yaml.null :=
  ⟨rfl, rfl⟩

/-- C1, amended: unless the mappings file parses to a string scalar that
passes the membership checks (i.e. contains all three section names as
substrings), every document returned by `load_mappings` is a dict with all
three section keys *present*; a key explicitly mapped to null stays null
(see the counterexample), only absent keys are backfilled. -/
theorem c1_amended_sections_present (env : Env) (fs : FS)
    (h : ∀ s, fs.mappingsFile = FileState.content (Yaml.str s) →
      (pyInStr "mappings" s && pyInStr "trakt_mappings" s
        && pyInStr "title_mappings" s) = false) :
    ∃ ds, (load_mappings env fs).1 = Yaml.dict ds
      ∧ (lookupKey ds "mappings").isSome
      ∧ (lookupKey ds "trakt_mappings").isSome
      ∧ (lookupKey ds "title_mappings").isSome := by
  rcases load_shape env fs with hd | ⟨s, hm, hok, _⟩
  · exact hd
  · obtain ⟨q1, q2, q3⟩ := ensureSections_str_ok s _ hok
    have := h s hm
    rw [q1, q2, q3] at this
    cases this

/-- C1, witness for the amended theorem at a concrete store. -/
theorem c1_amended_sections_present_witness :
    ∃ ds, (load_mappings ⟨false, false⟩ ⟨FileState.absent, FileState.absent⟩).1 = Yaml.dict ds
      ∧ (lookupKey ds "mappings").isSome
      ∧ (lookupKey ds "trakt_mappings").isSome
      ∧ (lookupKey ds "title_mappings").isSome :=
  c1_amended_sections_present ⟨false, false⟩ ⟨FileState.absent, FileState.absent⟩
    (fun _ hc => FileState.noConfusion hc)

/-- C3: when the mappings file exists but fails to parse, `load_mappings`
falls through to the config fallback: it synthesizes the document from the
config's three sections (empty-dict defaults), persists it with the
migration flag (so the config loses its mapping keys), and returns it. -/
theorem c3_parse_failure_falls_back (env : Env) (fs : FS)
    (cfg : List (String × Yaml))
    (hm : fs.mappingsFile = FileState.malformed)
    (hc : fs.configFile = FileState.content (Yaml.dict cfg))
    (hw : env.mappingsWriteFails = false) (hcw : env.configWriteFails = false) :
    load_mappings env fs =
      (cfgDoc cfg,
        ⟨FileState.content (cfgDoc cfg),
          FileState.content (Yaml.dict (eraseConfigSections cfg))⟩) := by
  apply load_fallback env fs cfg _ hc hw hcw
  simp [loadPrimary, hm]

/-- C3, witness at a concrete store. -/
theorem c3_parse_failure_falls_back_witness :
    load_mappings ⟨false, false⟩
        ⟨FileState.malformed,
          FileState.content (Yaml.dict [("mappings", Yaml.dict [("a", Yaml.str "b")]),
            ("other", Yaml.str "x")])⟩ =
      (cfgDoc [("mappings", Yaml.dict [("a", Yaml.str "b")]), ("other", Yaml.str "x")],
        ⟨FileState.content
            (cfgDoc [("mappings", Yaml.dict [("a", Yaml.str "b")]), ("other", Yaml.str "x")]),
          FileState.content
            (Yaml.dict (eraseConfigSections
              [("mappings", Yaml.dict [("a", Yaml.str "b")]), ("other", Yaml.str "x")]))⟩) :=
  c3_parse_failure_falls_back _ _ _ rfl rfl rfl rfl

/-- C10: a mappings file parsing to null (e.g. an empty file) is not served
from the primary path: the membership check raises `TypeError` internally
(first conjunct), and `load_mappings` proceeds to the config fallback,
migrating as a side effect exactly as it would for a malformed file. -/
theorem c10_null_file_falls_back (env : Env) (fs : FS)
    (cfg : List (String × Yaml))
    (hm : fs.mappingsFile = FileState.content Yaml.null)
    (hc : fs.configFile = FileState.content (Yaml.dict cfg))
    (hw : env.mappingsWriteFails = false) (hcw : env.configWriteFails = false) :
    ensureSections Yaml.null = .error .typeError
    ∧ load_mappings env fs =
        (cfgDoc cfg,
          ⟨FileState.content (cfgDoc cfg),
            FileState.content (Yaml.dict (eraseConfigSections cfg))⟩) := by
  refine ⟨rfl, ?_⟩
  apply load_fallback env fs cfg _ hc hw hcw
  simp [loadPrimary, hm, ensureSections_null, Except.toOption]

/-- C10, witness at a concrete store. -/
theorem c10_null_file_falls_back_witness :
    ensureSections Yaml.null = .error .typeError
    ∧ load_mappings ⟨false, false⟩
          ⟨FileState.content Yaml.null,
            FileState.content (Yaml.dict [("title_mappings", Yaml.dict [])])⟩ =
        (cfgDoc [("title_mappings", Yaml.dict [])],
          ⟨FileState.content (cfgDoc [("title_mappings", Yaml.dict [])]),
            FileState.content
              (Yaml.dict (eraseConfigSections [("title_mappings", Yaml.dict [])]))⟩) :=
  c10_null_file_falls_back _ _ _ rfl rfl rfl rfl

/-- C7: `save_mappings` reports failure exactly when the mappings-file write
itself fails (first conjunct, both directions), and a failing config rewrite
during migration is swallowed: the save still reports success (second
conjunct).  The operation is a total function of the store: it never
raises. -/
theorem c7_save_failure_semantics :
    (∀ (env : Env) (doc : Yaml) (migrate : Bool) (fs : FS),
      (save_mappings env doc migrate fs).1 = !env.mappingsWriteFails)
    ∧ ∀ (doc : Yaml) (fs : FS),
      (save_mappings ⟨false, true⟩ doc true fs).1 = true := by
  constructor
  · intro env doc migrate fs
    obtain ⟨mw, cw⟩ := env
    obtain ⟨mf, cf⟩ := fs
    cases mw <;> cases cw <;> cases migrate <;> cases cf <;>
      (simp [save_mappings, fileExists]; try (split <;> rfl))
  · intro doc fs
    obtain ⟨mf, cf⟩ := fs
    cases cf <;>
      (simp [save_mappings, fileExists]; try (split <;> rfl))

/-- C8: for a valid document (a dict with all three sections present),
`save(D)` followed by `save(load())` leaves exactly the store `save(D)`
alone left, and that second save succeeds. -/
theorem c8_save_load_save_idempotent (env : Env) (fs : FS)
    (ds : List (String × Yaml))
    (hw : env.mappingsWriteFails = false)
    (h1 : (lookupKey ds "mappings").isSome = true)
    (h2 : (lookupKey ds "trakt_mappings").isSome = true)
    (h3 : (lookupKey ds "title_mappings").isSome = true) :
    save_mappings env
        (load_mappings env (save_mappings env (Yaml.dict ds) false fs).2).1 false
        (load_mappings env (save_mappings env (Yaml.dict ds) false fs).2).2
      = (true, (save_mappings env (Yaml.dict ds) false fs).2) := by
  obtain ⟨mf, cf⟩ := fs
  rw [save_plain env (Yaml.dict ds) ⟨mf, cf⟩ hw]
  rw [load_primary_eq env _ (Yaml.dict ds) (Yaml.dict ds) rfl
    (ensureSections_noop ds h1 h2 h3)]
  exact save_plain env (Yaml.dict ds) _ hw

/-- C8, witness at a concrete valid document and store. -/
theorem c8_save_load_save_idempotent_witness :
    save_mappings ⟨false, false⟩
        (load_mappings ⟨false, false⟩
          (save_mappings ⟨false, false⟩
            (Yaml.dict [("mappings", Yaml.dict [("a", Yaml.str "b")]),
              ("trakt_mappings", Yaml.dict []), ("title_mappings", Yaml.dict [])])
            false ⟨FileState.absent, FileState.absent⟩).2).1 false
        (load_mappings ⟨false, false⟩
          (save_mappings ⟨false, false⟩
            (Yaml.dict [("mappings", Yaml.dict [("a", Yaml.str "b")]),
              ("trakt_mappings", Yaml.dict []), ("title_mappings", Yaml.dict [])])
            false ⟨FileState.absent, FileState.absent⟩).2).2
      = (true,
          (save_mappings ⟨false, false⟩
            (Yaml.dict [("mappings", Yaml.dict [("a", Yaml.str "b")]),
              ("trakt_mappings", Yaml.dict []), ("title_mappings", Yaml.dict [])])
            false ⟨FileState.absent, FileState.absent⟩).2) :=
  c8_save_load_save_idempotent ⟨false, false⟩ ⟨FileState.absent, FileState.absent⟩
    _ rfl rfl rfl rfl

/-- C9: when the mappings file exists and parses to a dict, migration writes
the mappings file's own (backfilled) content `d` — determined by `m` alone,
never reading the config's mapping sections — while the config still loses
its three mapping keys, so config-only mapping entries are discarded. -/
theorem c9_migrate_ignores_config_sections (env : Env) (fs : FS)
    (m cfg : List (String × Yaml))
    (hm : fs.mappingsFile = FileState.content (Yaml.dict m))
    (hc : fs.configFile = FileState.content (Yaml.dict cfg))
    (hw : env.mappingsWriteFails = false) (hcw : env.configWriteFails = false) :
    ∃ d, ensureSections (Yaml.dict m) = .ok d
      ∧ migrate_mappings_from_config env fs =
          (true, ⟨FileState.content d,
            FileState.content (Yaml.dict (eraseConfigSections cfg))⟩) := by
  obtain ⟨es', he, _, _, _⟩ := ensureSections_dict m
  refine ⟨Yaml.dict es', he, ?_⟩
  unfold migrate_mappings_from_config
  rw [load_primary_eq env fs (Yaml.dict m) (Yaml.dict es') hm he]
  exact save_migrate_dict env _ fs cfg hw hcw hc

/-- C9, witness: the config-only entry `cfg_only` is dropped. -/
theorem c9_migrate_ignores_config_sections_witness :
    ∃ d, ensureSections (Yaml.dict [("mappings", Yaml.dict [("x", Yaml.str "y")])]) = .ok d
      ∧ migrate_mappings_from_config ⟨false, false⟩
            ⟨FileState.content (Yaml.dict [("mappings", Yaml.dict [("x", Yaml.str "y")])]),
              FileState.content
                (Yaml.dict [("mappings", Yaml.dict [("cfg_only", Yaml.str "z")])])⟩ =
          (true, ⟨FileState.content d,
            FileState.content
              (Yaml.dict (eraseConfigSections
                [("mappings", Yaml.dict [("cfg_only", Yaml.str "z")])]))⟩) :=
  c9_migrate_ignores_config_sections _ _ _ _ rfl rfl rfl rfl

/-- C4, counterexample: the claim quantifies only over the ConfigDocument,
but `migrate_mappings_from_config` starts with `load_mappings`, which
prefers an existing parseable mappings file.  With a pre-existing mappings
file holding `mappings: {x: y}` and a config holding `mappings: {a: b}`,
migration leaves the mappings file with `{x: y}`, not `{a: b}`. -/
theorem c4_counterexample :
    (match (migrate_mappings_from_config ⟨false, false⟩
        ⟨FileState.content (Yaml.dict [("mappings", Yaml.dict [("x", Yaml.str "y")]),
            ("trakt_mappings", Yaml.dict []), ("title_mappings", Yaml.dict [])]),
          FileState.content
            (Yaml.dict [("mappings", Yaml.dict [("a", Yaml.str "b")])])⟩).2.mappingsFile with
      | FileState.content d => d.lookupY "mappings"
      | _ => none) = some (Yaml.dict [("x", Yaml.str "y")])
    ∧ Yaml.dict [("x", Yaml.str "y")] ≠ Yaml.dict [("a", Yaml.str "b")] :=
  ⟨rfl, by simp⟩

/-- C4, amended: when the mappings file does not pre-exist *or fails to
parse*, running migration against a config whose `mappings` key holds `M` leaves the
mappings file containing `mappings: M`, removes the `mappings` key (and the
other two section keys) from the config, and leaves every other config key
unchanged. -/
theorem c4_amended_migrate_from_config (env : Env) (fs : FS)
    (cfg : List (String × Yaml)) (M : Yaml)
    (hm : fs.mappingsFile = FileState.absent ∨ fs.mappingsFile = FileState.malformed)
    (hc : fs.configFile = FileState.content (Yaml.dict cfg))
    (hmap : lookupKey cfg "mappings" = some M)
    (hw : env.mappingsWriteFails = false) (hcw : env.configWriteFails = false) :
    ∃ d cfg',
      migrate_mappings_from_config env fs =
          (true, ⟨FileState.content d, FileState.content (Yaml.dict cfg')⟩)
      ∧ d.lookupY "mappings" = some M
      ∧ lookupKey cfg' "mappings" = none
      ∧ ∀ k, k ≠ "mappings" → k ≠ "trakt_mappings" → k ≠ "title_mappings" →
          lookupKey cfg' k = lookupKey cfg k := by
  have hp : loadPrimary fs = none := by
    rcases hm with hm | hm <;> simp [loadPrimary, hm]
  have hload := load_fallback env fs cfg hp hc hw hcw
  refine ⟨cfgDoc cfg, eraseConfigSections (eraseConfigSections cfg), ?_, ?_, ?_, ?_⟩
  · unfold migrate_mappings_from_config
    rw [hload]
    exact save_migrate_dict env _ _ (eraseConfigSections cfg) hw hcw rfl
  · simp [cfgDoc, Yaml.lookupY, lookupKey, hmap]
  · exact eraseConfigSections_mappings (eraseConfigSections cfg)
  · intro k k1 k2 k3
    rw [eraseConfigSections_other _ _ k1 k2 k3, eraseConfigSections_other _ _ k1 k2 k3]

/-- C4, witness for the amended theorem: `mappings: {a: b}` moves to the
mappings file, the config loses the key, and `keep` survives. -/
theorem c4_amended_migrate_from_config_witness :
    ∃ d cfg',
      migrate_mappings_from_config ⟨false, false⟩
          ⟨FileState.absent,
            FileState.content (Yaml.dict [("mappings", Yaml.dict [("a", Yaml.str "b")]),
              ("keep", Yaml.str "v")])⟩ =
          (true, ⟨FileState.content d, FileState.content (Yaml.dict cfg')⟩)
      ∧ d.lookupY "mappings" = some (Yaml.dict [("a", Yaml.str "b")])
      ∧ lookupKey cfg' "mappings" = none
      ∧ ∀ k, k ≠ "mappings" → k ≠ "trakt_mappings" → k ≠ "title_mappings" →
          lookupKey cfg' k =
            lookupKey [("mappings", Yaml.dict [("a", Yaml.str "b")]),
              ("keep", Yaml.str "v")] k :=
  c4_amended_migrate_from_config ⟨false, false⟩ _ _ _ (Or.inl rfl) rfl rfl rfl rfl

/-- C6: `get_plex_name` falls back to the identifier itself when it has no
entry in the loaded `mappings` section, and applies the hyphen-to-space,
title-case post-processing to whichever name results (lines 178-182). -/
theorem c6_get_plex_name_formats (env : Env) (fs : FS) (sourceId : String)
    (sec : List (String × Yaml))
    (hsec : pyGet (load_mappings env fs).1 "mappings" (Yaml.dict []) =
      .ok (Yaml.dict sec)) :
    (lookupKey sec sourceId = none →
      (get_plex_name env sourceId fs).1 =
        .ok (.str (if pyInStr "-" sourceId
          then pyTitle (pyReplaceChar '-' ' ' sourceId) else sourceId)))
    ∧ ∀ name, lookupKey sec sourceId = some (Yaml.str name) →
      (get_plex_name env sourceId fs).1 =
        .ok (.str (if pyInStr "-" name
          then pyTitle (pyReplaceChar '-' ' ' name) else name)) := by
  constructor
  · intro hmiss
    simp only [get_plex_name, hsec]
    simp only [pyGet, hmiss, Option.getD]
    cases hb : pyInStr "-" sourceId <;> simp [pyContains, hb]
  · intro name hname
    simp only [get_plex_name, hsec]
    simp only [pyGet, hname, Option.getD]
    cases hb : pyInStr "-" name <;> simp [pyContains, hb]

/-- C6, witness: the unmapped slug `one-piece` formats to `One Piece`, and a
mapped slug-valued name is formatted the same way. -/
theorem c6_get_plex_name_formats_witness :
    (get_plex_name ⟨false, false⟩ "one-piece"
        ⟨FileState.absent, FileState.absent⟩).1 = .ok (.str "One Piece")
    ∧ (get_plex_name ⟨false, false⟩ "foo"
        ⟨FileState.content (Yaml.dict
            [("mappings", Yaml.dict [("foo", Yaml.str "my-show-name")]),
              ("trakt_mappings", Yaml.dict []), ("title_mappings", Yaml.dict [])]),
          FileState.absent⟩).1 = .ok (.str "My Show Name") := by
  constructor
  · have h := (c6_get_plex_name_formats ⟨false, false⟩
      ⟨FileState.absent, FileState.absent⟩ "one-piece" [] rfl).1 rfl
    rw [show (if pyInStr "-" "one-piece"
        then pyTitle (pyReplaceChar '-' ' ' "one-piece") else "one-piece") =
      "One Piece" from rfl] at h
    exact h
  · have h := (c6_get_plex_name_formats ⟨false, false⟩
      ⟨FileState.content (Yaml.dict
          [("mappings", Yaml.dict [("foo", Yaml.str "my-show-name")]),
            ("trakt_mappings", Yaml.dict []), ("title_mappings", Yaml.dict [])]),
        FileState.absent⟩ "foo"
      [("foo", Yaml.str "my-show-name")] rfl).2 "my-show-name" rfl
    rw [show (if pyInStr "-" "my-show-name"
        then pyTitle (pyReplaceChar '-' ' ' "my-show-name") else "my-show-name") =
      "My Show Name" from rfl] at h
    exact h

/-- C2, counterexample: `get_plex_name` has no `try/except`; with a mappings
file mapping `foo` to null, the hyphen test `'-' in None` raises `TypeError`
and the exception propagates to the caller, contradicting the claim that no
public operation ever propagates an exception. -/
theorem c2_counterexample :
    (get_plex_name ⟨false, false⟩ "foo"
        ⟨FileState.content (Yaml.dict [("mappings", Yaml.dict [("foo", Yaml.null)])]),
          FileState.absent⟩).1 = .error .typeError := rfl

/-- C2, amended: every public operation except `get_plex_name` is
exception-free by construction (each body is wrapped in a catch and returns
a boolean or a default document); `get_plex_name` itself returns normally —
a string, never an exception — provided the loaded document's `mappings`
section is absent or a dict whose values are strings. -/
theorem c2_amended_no_exception (env : Env) (fs : FS) (afl : String)
    (ds : List (String × Yaml))
    (hd : (load_mappings env fs).1 = Yaml.dict ds)
    (hsec : (match lookupKey ds "mappings" with
      | none => true
      | some (Yaml.dict sec) => sec.all fun p => p.2.isStr
      | some _ => false) = true) :
    ∃ s, (get_plex_name env afl fs).1 = .ok (.str s) := by
  simp only [get_plex_name, hd]
  cases hv : lookupKey ds "mappings" with
  | none =>
    simp only [pyGet, hv, Option.getD, lookupKey]
    cases hb : pyInStr "-" afl <;> simp [pyContains, hb]
  | some v =>
    rw [hv] at hsec
    cases v with
    | null => simp at hsec
    | str s => simp at hsec
    | dict sec =>
      simp only [pyGet, hv, Option.getD]
      cases hw : lookupKey sec afl with
      | none =>
        simp only [hw, Option.getD]
        cases hb : pyInStr "-" afl <;> simp [pyContains, hb]
      | some w =>
        have hmem := lookupKey_mem sec afl w hw
        have hstr : w.isStr = true := by
          rw [List.all_eq_true] at hsec
          exact hsec (afl, w) hmem
        cases w with
        | null => simp [Yaml.isStr] at hstr
        | dict es => simp [Yaml.isStr] at hstr
        | str s =>
          simp only [hw, Option.getD]
          cases hb : pyInStr "-" s <;> simp [pyContains, hb]

/-- C2, witness for the amended theorem: a string-valued mappings section
makes `get_plex_name` return normally. -/
theorem c2_amended_no_exception_witness :
    ∃ s, (get_plex_name ⟨false, false⟩ "foo"
        ⟨FileState.content (Yaml.dict [("mappings", Yaml.dict [("foo", Yaml.str "Bar")])]),
          FileState.absent⟩).1 = .ok (.str s) :=
  c2_amended_no_exception ⟨false, false⟩ _ "foo"
    [("mappings", Yaml.dict [("foo", Yaml.str "Bar")]),
      ("trakt_mappings", Yaml.dict []), ("title_mappings", Yaml.dict [])] rfl rfl

/-! ### `add_title_mapping` body analysis -/

/-- Line 137 on a string document always raises: either the membership test
passes and the item access raises `TypeError`, or the assignment does. -/
theorem ensureTitleSection_str (s : String) (d : Yaml)
    (h : ensureTitleSection (Yaml.str s) = .ok d) : False := by
  unfold ensureTitleSection at h
  cases hb : pyInStr "title_mappings" s <;>
    simp [pyContains, hb, pyGetItem, pySetItem] at h

/-- Line 137 on a dict never raises and establishes a non-null
`title_mappings` entry, leaving other keys alone. -/
theorem ensureTitleSection_dict (ds : List (String × Yaml)) :
    ∃ ds1, ensureTitleSection (Yaml.dict ds) = .ok (Yaml.dict ds1)
      ∧ (∃ tv, lookupKey ds1 "title_mappings" = some tv ∧ tv.isNull = false)
      ∧ ∀ k, k ≠ "title_mappings" → lookupKey ds1 k = lookupKey ds k := by
  cases hv : lookupKey ds "title_mappings" with
  | none =>
    refine ⟨setKey ds "title_mappings" (Yaml.dict []), ?_,
      ⟨Yaml.dict [], lookupKey_setKey_self _ _ _, rfl⟩,
      fun k hk => lookupKey_setKey_ne _ _ _ _ hk⟩
    simp [ensureTitleSection, pyContains, hv, pySetItem]
  | some tv =>
    cases htv : tv.isNull with
    | true =>
      refine ⟨setKey ds "title_mappings" (Yaml.dict []), ?_,
        ⟨Yaml.dict [], lookupKey_setKey_self _ _ _, rfl⟩,
        fun k hk => lookupKey_setKey_ne _ _ _ _ hk⟩
      simp [ensureTitleSection, pyContains, hv, pyGetItem, htv, pySetItem]
    | false =>
      refine ⟨ds, ?_, ⟨tv, hv, htv⟩, fun k hk => rfl⟩
      simp [ensureTitleSection, pyContains, hv, pyGetItem, htv]

/-- Lines 141-142, inversion: a successful run either passed a string
`title_mappings` value through untouched (a later step will raise on it) or
left a dict `title_mappings` table containing an entry for the show. -/
theorem ensureAnimeSection_ok (anime : String) (ds1 : List (String × Yaml))
    (tv : Yaml) (d2 : Yaml)
    (hv : lookupKey ds1 "title_mappings" = some tv)
    (h : ensureAnimeSection anime (Yaml.dict ds1) = .ok d2) :
    (∃ s, tv = Yaml.str s ∧ d2 = Yaml.dict ds1)
    ∨ (∃ ds2 tm2 wv, d2 = Yaml.dict ds2
        ∧ lookupKey ds2 "title_mappings" = some (Yaml.dict tm2)
        ∧ lookupKey tm2 anime = some wv
        ∧ ∀ k, k ≠ "title_mappings" → lookupKey ds2 k = lookupKey ds1 k) := by
  unfold ensureAnimeSection at h
  simp only [pyGetItem, hv] at h
  cases tv with
  | null => simp [pyContains] at h
  | str s =>
    cases hb : pyInStr anime s with
    | true =>
      simp only [pyContains, hb, if_pos] at h
      exact Or.inl ⟨s, rfl, (Except.ok.inj h).symm⟩
    | false => simp [pyContains, hb, pySetItem] at h
  | dict tm =>
    cases hw : lookupKey tm anime with
    | some wv =>
      simp only [pyContains, hw, Option.isSome_some, if_pos] at h
      exact Or.inr ⟨ds1, tm, wv, (Except.ok.inj h).symm, hv, hw, fun _ _ => rfl⟩
    | none =>
      simp only [pyContains, hw, Option.isSome_none, Bool.false_eq_true, if_false,
        pySetItem, Except.ok.injEq] at h
      exact Or.inr ⟨setKey ds1 "title_mappings" (Yaml.dict (setKey tm anime (Yaml.dict []))),
        setKey tm anime (Yaml.dict []), Yaml.dict [], h.symm,
        lookupKey_setKey_self _ _ _, lookupKey_setKey_self _ _ _,
        fun k hk => lookupKey_setKey_ne _ _ _ _ hk⟩

/-- Lines 145-146, inversion: success forces the show entry to be a dict and
establishes a non-null `special_matches` value under it. -/
theorem ensureSpecialMatches_ok (anime : String) (ds2 tm2 : List (String × Yaml))
    (wv : Yaml) (d3 : Yaml)
    (hv : lookupKey ds2 "title_mappings" = some (Yaml.dict tm2))
    (hw : lookupKey tm2 anime = some wv)
    (h : ensureSpecialMatches anime (Yaml.dict ds2) = .ok d3) :
    ∃ ds3 tm3 w3 smv, d3 = Yaml.dict ds3
      ∧ lookupKey ds3 "title_mappings" = some (Yaml.dict tm3)
      ∧ lookupKey tm3 anime = some (Yaml.dict w3)
      ∧ lookupKey w3 "special_matches" = some smv
      ∧ smv.isNull = false
      ∧ ∀ k, k ≠ "title_mappings" → lookupKey ds3 k = lookupKey ds2 k := by
  unfold ensureSpecialMatches at h
  simp only [pyGetItem, hv, hw] at h
  cases wv with
  | null => simp [pyContains] at h
  | str s =>
    cases hb : pyInStr "special_matches" s <;> simp [pyContains, hb, pySetItem] at h
  | dict w =>
    cases hs : lookupKey w "special_matches" with
    | none =>
      simp only [pyContains, hs, Option.isSome_none, Bool.false_eq_true, if_false,
        pySetItem, Except.ok.injEq] at h
      rw [if_pos trivial] at h
      simp only [Except.ok.injEq] at h
      refine ⟨setKey ds2 "title_mappings"
          (Yaml.dict (setKey tm2 anime (Yaml.dict (setKey w "special_matches" (Yaml.dict []))))),
        setKey tm2 anime (Yaml.dict (setKey w "special_matches" (Yaml.dict []))),
        setKey w "special_matches" (Yaml.dict []), Yaml.dict [], h.symm,
        lookupKey_setKey_self _ _ _, lookupKey_setKey_self _ _ _,
        lookupKey_setKey_self _ _ _, rfl,
        fun k hk => lookupKey_setKey_ne _ _ _ _ hk⟩
    | some sv =>
      cases hn : sv.isNull with
      | true =>
        simp only [pyContains, hs, Option.isSome_some, if_true, pyGetItem, hn,
          pySetItem, Except.ok.injEq] at h
        refine ⟨setKey ds2 "title_mappings"
            (Yaml.dict (setKey tm2 anime (Yaml.dict (setKey w "special_matches" (Yaml.dict []))))),
          setKey tm2 anime (Yaml.dict (setKey w "special_matches" (Yaml.dict []))),
          setKey w "special_matches" (Yaml.dict []), Yaml.dict [], h.symm,
          lookupKey_setKey_self _ _ _, lookupKey_setKey_self _ _ _,
          lookupKey_setKey_self _ _ _, rfl,
          fun k hk => lookupKey_setKey_ne _ _ _ _ hk⟩
      | false =>
        simp only [pyContains, hs, Option.isSome_some, if_true, pyGetItem, hn,
          Bool.false_eq_true, if_false, Except.ok.injEq] at h
        exact ⟨ds2, tm2, w, sv, h.symm, hv, hw, hs, hn, fun _ _ => rfl⟩

/-- Line 149, inversion: success forces `special_matches` to be a dict and
records the episode-to-title binding along the nested-update spine. -/
theorem setSpecialMatch_ok (anime ep title : String)
    (ds3 tm3 w3 : List (String × Yaml)) (smv : Yaml) (d' : Yaml)
    (hv : lookupKey ds3 "title_mappings" = some (Yaml.dict tm3))
    (hw : lookupKey tm3 anime = some (Yaml.dict w3))
    (hs : lookupKey w3 "special_matches" = some smv)
    (h : setSpecialMatch anime ep title (Yaml.dict ds3) = .ok d') :
    ∃ sm, smv = Yaml.dict sm
      ∧ d' = Yaml.dict (setKey ds3 "title_mappings"
          (Yaml.dict (setKey tm3 anime
            (Yaml.dict (setKey w3 "special_matches"
              (Yaml.dict (setKey sm ep (Yaml.str title)))))))) := by
  unfold setSpecialMatch at h
  simp only [pyGetItem, hv, hw, hs] at h
  cases smv with
  | null => simp [pySetItem] at h
  | str s => simp [pySetItem] at h
  | dict sm =>
    simp only [pySetItem, Except.ok.injEq] at h
    exact ⟨sm, rfl, h.symm⟩

/-- The whole body (lines 137-149) on a string document always raises. -/
theorem addTitleBody_str (anime ep title s : String) (d' : Yaml)
    (h : addTitleBody anime ep title (Yaml.str s) = .ok d') : False := by
  unfold addTitleBody at h
  cases he : ensureTitleSection (Yaml.str s) with
  | error e => simp only [he] at h; cases h
  | ok d1 => exact ensureTitleSection_str s d1 he

/-- The whole body, inversion on a dict document carrying the `mappings` and
`trakt_mappings` keys: success yields a dict that still carries both keys
and stores the episode title at
`title_mappings[anime].special_matches[ep]`. -/
theorem addTitleBody_ok (anime ep title : String) (ds : List (String × Yaml))
    (d' : Yaml)
    (hm : (lookupKey ds "mappings").isSome = true)
    (ht : (lookupKey ds "trakt_mappings").isSome = true)
    (h : addTitleBody anime ep title (Yaml.dict ds) = .ok d') :
    ∃ ds' tm w sm, d' = Yaml.dict ds'
      ∧ (lookupKey ds' "mappings").isSome = true
      ∧ (lookupKey ds' "trakt_mappings").isSome = true
      ∧ lookupKey ds' "title_mappings" = some (Yaml.dict tm)
      ∧ lookupKey tm anime = some (Yaml.dict w)
      ∧ lookupKey w "special_matches" = some (Yaml.dict sm)
      ∧ lookupKey sm ep = some (Yaml.str title) := by
  unfold addTitleBody at h
  obtain ⟨ds1, e1, ⟨tv, hv1, hnn⟩, hp1⟩ := ensureTitleSection_dict ds
  simp only [e1] at h
  cases h2 : ensureAnimeSection anime (Yaml.dict ds1) with
  | error e => simp only [h2] at h; cases h
  | ok d2 =>
    simp only [h2] at h
    rcases ensureAnimeSection_ok anime ds1 tv d2 hv1 h2 with
      ⟨s, rfl, rfl⟩ | ⟨ds2, tm2, wv, rfl, hv2, hw2, hp2⟩
    · cases h3 : ensureSpecialMatches anime (Yaml.dict ds1) with
      | error e => simp only [h3] at h; cases h
      | ok d3 =>
        exfalso
        simp [ensureSpecialMatches, pyGetItem, hv1] at h3
    · cases h3 : ensureSpecialMatches anime (Yaml.dict ds2) with
      | error e => simp only [h3] at h; cases h
      | ok d3 =>
        simp only [h3] at h
        obtain ⟨ds3, tm3, w3, smv, rfl, hv3, hw3, hs3, hsn, hp3⟩ :=
          ensureSpecialMatches_ok anime ds2 tm2 wv d3 hv2 hw2 h3
        obtain ⟨sm, rfl, rfl⟩ :=
          setSpecialMatch_ok anime ep title ds3 tm3 w3 _ _ hv3 hw3 hs3 h
        refine ⟨_, _, _, _, rfl, ?_, ?_, lookupKey_setKey_self _ _ _,
          lookupKey_setKey_self _ _ _, lookupKey_setKey_self _ _ _,
          lookupKey_setKey_self _ _ _⟩
        · rw [lookupKey_setKey_ne _ _ _ _ (by decide), hp3 _ (by decide),
            hp2 _ (by decide), hp1 _ (by decide)]
          exact hm
        · rw [lookupKey_setKey_ne _ _ _ _ (by decide), hp3 _ (by decide),
            hp2 _ (by decide), hp1 _ (by decide)]
          exact ht

/-- The whole body on a document already in good shape at `anime`: all the
ensure-steps are no-ops and the update is the nested `setKey` spine. -/
theorem addTitleBody_good (anime ep title : String)
    (ds tm w sm : List (String × Yaml))
    (h1 : lookupKey ds "title_mappings" = some (Yaml.dict tm))
    (h2 : lookupKey tm anime = some (Yaml.dict w))
    (h3 : lookupKey w "special_matches" = some (Yaml.dict sm)) :
    addTitleBody anime ep title (Yaml.dict ds) =
      .ok (Yaml.dict (setKey ds "title_mappings"
        (Yaml.dict (setKey tm anime
          (Yaml.dict (setKey w "special_matches"
            (Yaml.dict (setKey sm ep (Yaml.str title))))))))) := by
  have e1 : ensureTitleSection (Yaml.dict ds) = .ok (Yaml.dict ds) := by
    simp [ensureTitleSection, pyContains, h1, pyGetItem, Yaml.isNull]
  have e2 : ensureAnimeSection anime (Yaml.dict ds) = .ok (Yaml.dict ds) := by
    simp [ensureAnimeSection, pyGetItem, h1, pyContains, h2]
  have e3 : ensureSpecialMatches anime (Yaml.dict ds) = .ok (Yaml.dict ds) := by
    simp [ensureSpecialMatches, pyGetItem, h1, h2, pyContains, h3, Yaml.isNull]
  unfold addTitleBody
  simp only [e1, e2, e3]
  simp [setSpecialMatch, pyGetItem, h1, h2, h3, pySetItem]

/-- A successful body followed by a successful plain save: the whole
`add_title_mapping` call in equation form. -/
theorem add_title_mapping_eq (env : Env) (anime ep title : String) (fs : FS)
    (d' : Yaml)
    (hb : addTitleBody anime ep title (load_mappings env fs).1 = .ok d')
    (hw : env.mappingsWriteFails = false) :
    add_title_mapping env anime ep title fs =
      (true, { (load_mappings env fs).2 with mappingsFile := .content d' }) := by
  simp only [add_title_mapping]
  rw [hb]
  exact save_plain env d' _ hw

/-- C5: if `add_title_mapping(anime, ep, title)` reports success, a
subsequent load shows `title_mappings[anime].special_matches[ep] = title`;
and a second `add_title_mapping(anime, ep2, title2)` for a different
episode also succeeds, preserves the first entry, and records the second. -/
theorem c5_add_title_mapping_persists (env : Env) (fs : FS)
    (anime ep title ep2 title2 : String)
    (h1 : (add_title_mapping env anime ep title fs).1 = true) :
    titlePath (load_mappings env (add_title_mapping env anime ep title fs).2).1
        anime ep = some (Yaml.str title)
    ∧ (ep2 ≠ ep →
        (add_title_mapping env anime ep2 title2
            (add_title_mapping env anime ep title fs).2).1 = true
        ∧ titlePath (load_mappings env (add_title_mapping env anime ep2 title2
              (add_title_mapping env anime ep title fs).2).2).1
            anime ep = some (Yaml.str title)
        ∧ titlePath (load_mappings env (add_title_mapping env anime ep2 title2
              (add_title_mapping env anime ep title fs).2).2).1
            anime ep2 = some (Yaml.str title2)) := by
  cases hb : addTitleBody anime ep title (load_mappings env fs).1 with
  | error e =>
    exfalso
    unfold add_title_mapping at h1
    simp only [hb] at h1
    cases h1
  | ok d' =>
    unfold add_title_mapping at h1
    simp only [hb] at h1
    have hw : env.mappingsWriteFails = false := by
      cases hwf : env.mappingsWriteFails
      · rfl
      · rw [save_fail env d' false _ hwf] at h1
        cases h1
    rcases load_shape env fs with ⟨ds, hds, hm, ht, _⟩ | ⟨s, _, _, hstr⟩
    · have hbd : addTitleBody anime ep title (Yaml.dict ds) = .ok d' := by
        rw [← hds]
        exact hb
      obtain ⟨ds', tm, w, sm, rfl, hm', ht', htm, hwq, hsm, hep⟩ :=
        addTitleBody_ok anime ep title ds _ hm ht hbd
      have hadd := add_title_mapping_eq env anime ep title fs _ hb hw
      have hload1 : load_mappings env (add_title_mapping env anime ep title fs).2 =
          (Yaml.dict ds', (add_title_mapping env anime ep title fs).2) := by
        have hmf : (add_title_mapping env anime ep title fs).2.mappingsFile =
            .content (Yaml.dict ds') := by
          rw [hadd]
        exact load_primary_eq env _ (Yaml.dict ds') (Yaml.dict ds') hmf
          (ensureSections_noop ds' hm' ht' (by simp [htm]))
      constructor
      · rw [hload1]
        simp only [titlePath, Yaml.lookupY, htm, Option.some_bind, hwq, hsm, hep]
      · intro hne
        have hb2 : addTitleBody anime ep2 title2
            (load_mappings env (add_title_mapping env anime ep title fs).2).1 =
            .ok (Yaml.dict (setKey ds' "title_mappings"
              (Yaml.dict (setKey tm anime
                (Yaml.dict (setKey w "special_matches"
                  (Yaml.dict (setKey sm ep2 (Yaml.str title2))))))))) := by
          rw [hload1]
          exact addTitleBody_good anime ep2 title2 ds' tm w sm htm hwq hsm
        have hadd2 := add_title_mapping_eq env anime ep2 title2
          (add_title_mapping env anime ep title fs).2 _ hb2 hw
        have hmf2 : (add_title_mapping env anime ep2 title2
            (add_title_mapping env anime ep title fs).2).2.mappingsFile =
            .content (Yaml.dict (setKey ds' "title_mappings"
              (Yaml.dict (setKey tm anime
                (Yaml.dict (setKey w "special_matches"
                  (Yaml.dict (setKey sm ep2 (Yaml.str title2))))))))) := by
          rw [hadd2]
        have hk1 : (lookupKey (setKey ds' "title_mappings"
            (Yaml.dict (setKey tm anime
              (Yaml.dict (setKey w "special_matches"
                (Yaml.dict (setKey sm ep2 (Yaml.str title2)))))))) "mappings").isSome = true := by
          rw [lookupKey_setKey_ne _ _ _ _ (by decide)]
          exact hm'
        have hk2 : (lookupKey (setKey ds' "title_mappings"
            (Yaml.dict (setKey tm anime
              (Yaml.dict (setKey w "special_matches"
                (Yaml.dict (setKey sm ep2 (Yaml.str title2)))))))) "trakt_mappings").isSome = true := by
          rw [lookupKey_setKey_ne _ _ _ _ (by decide)]
          exact ht'
        have hk3 : (lookupKey (setKey ds' "title_mappings"
            (Yaml.dict (setKey tm anime
              (Yaml.dict (setKey w "special_matches"
                (Yaml.dict (setKey sm ep2 (Yaml.str title2)))))))) "title_mappings").isSome = true := by
          simp [lookupKey_setKey_self]
        have hload2 : load_mappings env (add_title_mapping env anime ep2 title2
            (add_title_mapping env anime ep title fs).2).2 =
            (Yaml.dict (setKey ds' "title_mappings"
              (Yaml.dict (setKey tm anime
                (Yaml.dict (setKey w "special_matches"
                  (Yaml.dict (setKey sm ep2 (Yaml.str title2)))))))),
              (add_title_mapping env anime ep2 title2
                (add_title_mapping env anime ep title fs).2).2) :=
          load_primary_eq env _ _ _ hmf2 (ensureSections_noop _ hk1 hk2 hk3)
        refine ⟨?_, ?_, ?_⟩
        · rw [hadd2]
        · rw [hload2]
          simp only [titlePath, Yaml.lookupY, lookupKey_setKey_self, Option.some_bind]
          rw [lookupKey_setKey_ne _ _ _ _ (Ne.symm hne)]
          exact hep
        · rw [hload2]
          simp only [titlePath, Yaml.lookupY, lookupKey_setKey_self, Option.some_bind]
    · rw [hstr] at hb
      exact absurd hb (fun hc => addTitleBody_str anime ep title s d' hc)

/-- C5, witness: two concrete `add_title_mapping` calls on an initially
empty store, checking both persisted entries. -/
theorem c5_add_title_mapping_persists_witness :
    titlePath (load_mappings ⟨false, false⟩
        (add_title_mapping ⟨false, false⟩ "Naruto" "Ep 1" "Enter Naruto"
          ⟨FileState.absent, FileState.absent⟩).2).1
      "Naruto" "Ep 1" = some (Yaml.str "Enter Naruto")
    ∧ ((add_title_mapping ⟨false, false⟩ "Naruto" "Ep 2" "Second"
          (add_title_mapping ⟨false, false⟩ "Naruto" "Ep 1" "Enter Naruto"
            ⟨FileState.absent, FileState.absent⟩).2).1 = true
      ∧ titlePath (load_mappings ⟨false, false⟩
            (add_title_mapping ⟨false, false⟩ "Naruto" "Ep 2" "Second"
              (add_title_mapping ⟨false, false⟩ "Naruto" "Ep 1" "Enter Naruto"
                ⟨FileState.absent, FileState.absent⟩).2).2).1
          "Naruto" "Ep 1" = some (Yaml.str "Enter Naruto")
      ∧ titlePath (load_mappings ⟨false, false⟩
            (add_title_mapping ⟨false, false⟩ "Naruto" "Ep 2" "Second"
              (add_title_mapping ⟨false, false⟩ "Naruto" "Ep 1" "Enter Naruto"
                ⟨FileState.absent, FileState.absent⟩).2).2).1
          "Naruto" "Ep 2" = some (Yaml.str "Second")) :=
  ⟨(c5_add_title_mapping_persists ⟨false, false⟩ ⟨FileState.absent, FileState.absent⟩
      "Naruto" "Ep 1" "Enter Naruto" "Ep 2" "Second" rfl).1,
    (c5_add_title_mapping_persists ⟨false, false⟩ ⟨FileState.absent, FileState.absent⟩
      "Naruto" "Ep 1" "Enter Naruto" "Ep 2" "Second" rfl).2 (by decide)⟩
